import Mathlib

/-!
Verification development for the lexical scanner of the meriyah fork.

Shallow embedding of:
  - src/src/scanner/scan.ts      (firstCharKinds, scanSingleToken, nextToken)
  - src/src/scanner/common.ts    (advance, consumeMultiUnitCodePoint,
                                  isExoticECMAScriptWhitespace)
  - src/src/scanner/regexp.ts    (scanRegularExpression, validate)

The repository modules token.ts, chars.ts, errors.ts, unicode.ts,
charClassifier.ts, comments.ts, identifier.ts, numeric.ts, string.ts and the
root common.ts (ParserState, Context) are not part of src/; everything taken
from them is modelled from the specification and marked with a doc comment
starting with the words Modelled from the spec.

Representation choices:
  - UTF-16 code units are natural numbers, a source buffer is a List Nat.
  - String.prototype.charCodeAt returns NaN out of range in the source
    language; it is modelled as 0 here.  Every use of an out-of-range read in
    the embedded files is either an equality test against a nonzero unit, a
    range test with nonzero lower bound, or is forced through a bitwise or
    with 0 (which maps NaN to 0); on all of those, NaN and 0 agree, so the
    model is observationally faithful.
  - The TypeScript Context bitset is modelled as a structure of Booleans; a
    test like (context and Context.Module) corresponds to the field module.
  - The host regular-expression engine invoked by validate in regexp.ts is
    external to the scanner; it is passed in as a Host record of predicates.
-/

namespace Meriyah

/-- Token kinds used by the embedded scanner.  token.ts is not part of src/;
the constructor set is taken from the uses in scan.ts and regexp.ts together
with the spec (section 3: Token kind).  The bit-flag attribute encoding of
token kinds is not observed by any claim and is not modelled. -/
inductive Token where
  | Error
  | WhiteSpace
  | LineFeed
  | CarriageReturn
  | Identifier
  | IdentifierOrKeyword
  | StringLiteral
  | NumericLiteral
  | LeadingZero
  | UnicodeEscapeIdStart
  | TemplateTail
  | TemplateHead
  | Period
  | Ellipsis
  | LessThan
  | LessThanOrEqual
  | ShiftLeft
  | ShiftLeftAssign
  | QuestionMark
  | QuestionMarkPeriod
  | Coalesce
  | Assign
  | LooseEqual
  | StrictEqual
  | Arrow
  | Negate
  | LooseNotEqual
  | StrictNotEqual
  | Modulo
  | ModuloAssign
  | Multiply
  | MultiplyAssign
  | Exponentiate
  | ExponentiateAssign
  | BitwiseXor
  | BitwiseXorAssign
  | Add
  | Increment
  | AddAssign
  | Subtract
  | Decrement
  | SubtractAssign
  | Divide
  | DivideAssign
  | BitwiseOr
  | LogicalOr
  | BitwiseOrAssign
  | GreaterThan
  | GreaterThanOrEqual
  | ShiftRight
  | ShiftRightAssign
  | LogicalShiftRight
  | LogicalShiftRightAssign
  | BitwiseAnd
  | LogicalAnd
  | BitwiseAndAssign
  | LeftParen
  | RightParen
  | LeftBrace
  | RightBrace
  | LeftBracket
  | RightBracket
  | Comma
  | Colon
  | Semicolon
  | Complement
  | PrivateField
  | RegularExpression
  | EndOfSource
  deriving DecidableEq, Repr

/-- Modelled from the spec: the diagnostic error kinds (section 6, Diagnostic
surface); errors.ts is not part of src/. -/
inductive Errors where
  | UnterminatedString
  | UnterminatedRegExp
  | UnterminatedComment
  | UnterminatedTemplate
  | InvalidCharacter
  | InvalidSMPCharacter
  | InvalidUnicodeEscape
  | InvalidCodePoint
  | InvalidHexEscape
  | StrictOctalLiteral
  | StrictOctalEscape
  | DuplicateRegExpFlag
  | UnexpectedTokenRegExpFlag
  | HtmlCommentInWebCompat
  | IdentifierAfterNumericLiteral
  | ContinuousNumericSeparator
  | TrailingNumericSeparator
  | InvalidBigInt
  | ExpectedHexDigits
  deriving DecidableEq, Repr

namespace Chars

/-- Modelled from the spec: chars.ts is not part of src/; each constant is the
Unicode code point its name denotes. -/
def LineFeed : Nat := 10
def CarriageReturn : Nat := 13
def Exclamation : Nat := 0x21
def DoubleQuote : Nat := 0x22
def Dollar : Nat := 0x24
def Ampersand : Nat := 0x26
def SingleQuote : Nat := 0x27
def Asterisk : Nat := 0x2a
def Plus : Nat := 0x2b
def Hyphen : Nat := 0x2d
def Period : Nat := 0x2e
def Slash : Nat := 0x2f
def Zero : Nat := 0x30
def Nine : Nat := 0x39
def LessThan : Nat := 0x3c
def EqualSign : Nat := 0x3d
def GreaterThan : Nat := 0x3e
def QuestionMark : Nat := 0x3f
def UpperA : Nat := 0x41
def Backslash : Nat := 0x5c
def Underscore : Nat := 0x5f
def Backtick : Nat := 0x60
def LowerG : Nat := 0x67
def LowerI : Nat := 0x69
def LowerM : Nat := 0x6d
def LowerS : Nat := 0x73
def LowerU : Nat := 0x75
def LowerY : Nat := 0x79
def VerticalBar : Nat := 0x7c
def NextLine : Nat := 0x85
def NonBreakingSpace : Nat := 0xa0
def Ogham : Nat := 0x1680
def EnQuad : Nat := 0x2000
def ZeroWidthSpace : Nat := 0x200b
def LineSeparator : Nat := 0x2028
def ParagraphSeparator : Nat := 0x2029
def NarrowNoBreakSpace : Nat := 0x202f
def MathematicalSpace : Nat := 0x205f
def IdeographicSpace : Nat := 0x3000
def ZeroWidthNoBreakSpace : Nat := 0xfeff
def ByteOrderMark : Nat := 0xfeff

end Chars

/-- Modelled from the spec (section 3, Context): a bitset supplied by the
caller; the root common.ts defining the Context enum is not part of src/.
Only the bits read by the embedded scanner are modelled. -/
structure Context where
  strict : Bool
  module : Bool
  allowRegExp : Bool
  optionsNext : Bool
  optionsRaw : Bool
  disableWebCompat : Bool
  deriving DecidableEq, Repr

/-- Modelled from the spec (section 4.6): the host regular-expression engine
asked to compile a pattern by validate in regexp.ts.  compilesBare answers
whether RegExp(pattern) succeeds, compilesWithFlags whether
new RegExp(pattern, flags) succeeds. -/
structure Host where
  compilesBare : List Nat → Bool
  compilesWithFlags : List Nat → List Nat → Bool

/-- Modelled from the spec (section 3, token_value): the cooked value slot.
Only the values produced by the embedded regexp scanner are distinguished;
validate in regexp.ts returns a RegExp object, null, or Token.Error. -/
inductive TokenValue where
  | noneVal
  | regexpVal
  | nullVal
  | errorTokenVal
  deriving DecidableEq, Repr

/-- Modelled from the spec (section 3, ParserState): the mutable cursor and
output slot; the root common.ts defining ParserState is not part of src/.
The fields are those the embedded files read or write.  The length used by
scan.ts is source.length. -/
structure ParserState where
  source : List Nat
  index : Nat
  nextCodePoint : Nat
  line : Nat
  column : Nat
  tokenPos : Nat
  startPos : Nat
  precedingLineBreak : Nat
  token : Token
  diagnostics : List Errors
  tokenRegExp : Option (List Nat × List Nat)
  tokenRaw : List Nat
  tokenValue : TokenValue
  deriving Repr

/-- charCodeAt of the source buffer; out-of-range reads are modelled as 0
(see the header note on NaN). -/
def charCodeAt (source : List Nat) (i : Nat) : Nat :=
  source.getD i 0

/-- common.ts advance: increments column and index and refreshes
nextCodePoint from the source; the TypeScript function also returns the new
nextCodePoint, which callers of this embedding read back off the state. -/
def advance (st : ParserState) : ParserState :=
  { st with
    column := st.column + 1
    index := st.index + 1
    nextCodePoint := charCodeAt st.source (st.index + 1) }

/-- Modelled from the spec (section 6, Diagnostic surface): report from
errors.ts appends a diagnostic to the collector owned by the state;
diagnostics within a call are emitted in lexical order, hence the append at
the end. -/
def report (st : ParserState) (err : Errors) : ParserState :=
  { st with diagnostics := st.diagnostics ++ [err] }

/-- Modelled from the spec (section 4.7, Unicode tables): the ID_Start bitmap
lookup (unicodeLookup with base 34816 in scan.ts); unicode.ts is data not
part of src/.  Modelled on a representative subset: ASCII letters, dollar,
underscore, Latin-1 letters, and the start of the mathematical alphanumeric
block; surrogates (0xd800 to 0xdfff), whitespace and the emoji block are not
ID_Start, exactly as in the Unicode data the spec names. -/
def unicodeIdStart (c : Nat) : Bool :=
  decide ((0x41 ≤ c ∧ c ≤ 0x5a) ∨ (0x61 ≤ c ∧ c ≤ 0x7a) ∨ c = 0x24 ∨ c = 0x5f ∨
    (0xc0 ≤ c ∧ c ≤ 0xd6) ∨ (0xd8 ≤ c ∧ c ≤ 0xf6) ∨ (0xf8 ≤ c ∧ c ≤ 0x2c1) ∨
    (0x1d400 ≤ c ∧ c ≤ 0x1d454))

/-- Modelled from the spec (section 4.7, Unicode tables): the ID_Continue
bitmap lookup (unicodeLookup with base 0 in scan.ts and common.ts):
ID_Start plus decimal digits plus ZWNJ and ZWJ. -/
def unicodeIdContinue (c : Nat) : Bool :=
  unicodeIdStart c || decide ((0x30 ≤ c ∧ c ≤ 0x39) ∨ c = 0x200c ∨ c = 0x200d)

/-- Modelled from the spec (section 4.2): the ASCII identifier-part test used
by the fast paths; charClassifier.ts is not part of src/. -/
def isAsciiIdPart (c : Nat) : Bool :=
  decide (c = 0x24 ∨ c = 0x5f ∨ (0x30 ≤ c ∧ c ≤ 0x39) ∨ (0x41 ≤ c ∧ c ≤ 0x5a) ∨
    (0x61 ≤ c ∧ c ≤ 0x7a))

/-- Modelled from the spec (section 4.6): isIdentifierPart from
charClassifier.ts, used by the regexp flag loop: an ASCII identifier part or
a unit above 0x7e in the ID_Continue table. -/
def isIdentifierPart (c : Nat) : Bool :=
  isAsciiIdPart c || (decide (0x7e < c) && unicodeIdContinue c)

/-- Modelled from the spec: the Escape result enumeration of recovery.ts
(not part of src/) as returned by consumeMultiUnitCodePoint: 0 for no pair,
1 for a consumed pair, and a distinguished invalid-code-point value. -/
inductive Escape where
  | none
  | ok
  | invalidCodePoint
  deriving DecidableEq, Repr

/-- common.ts consumeMultiUnitCodePoint: combines a high surrogate with the
following low surrogate into the astral scalar, stores it in nextCodePoint,
checks the base-0 bitmap, and consumes the extra unit on success. -/
def consumeMultiUnitCodePoint (st : ParserState) (hi : Nat) : Escape × ParserState :=
  if (hi &&& 0xfc00) ≠ 0xd800 then (Escape.none, st)
  else
    let lo := charCodeAt st.source (st.index + 1)
    if (lo &&& 0xfc00) ≠ 0xdc00 then (Escape.none, st)
    else
      let hi2 := 0x10000 + ((hi &&& 0x3ff) <<< 10) + (lo &&& 0x3ff)
      let st := { st with nextCodePoint := hi2 }
      if unicodeIdContinue hi2 = false then (Escape.invalidCodePoint, st)
      else (Escape.ok, { st with index := st.index + 1 })

/-- common.ts isExoticECMAScriptWhitespace, embedded clause for clause. -/
def isExoticECMAScriptWhitespace (code : Nat) : Bool :=
  decide (code = Chars.NonBreakingSpace ∨
    code = Chars.ZeroWidthNoBreakSpace ∨
    code = Chars.NextLine ∨
    code = Chars.Ogham ∨
    (Chars.EnQuad ≤ code ∧ code ≤ Chars.ZeroWidthSpace) ∨
    code = Chars.NarrowNoBreakSpace ∨
    code = Chars.MathematicalSpace ∨
    code = Chars.IdeographicSpace ∨
    code = Chars.ByteOrderMark)

/-- scan.ts firstCharKinds: the 128-entry dispatch table indexed by the first
ASCII code unit. -/
def firstCharKinds : List Token := [
  Token.Error, Token.Error, Token.Error, Token.Error,            -- 0 to 3
  Token.Error, Token.Error, Token.Error, Token.Error,            -- 4 to 7
  Token.Error,                                                   -- 8
  Token.WhiteSpace,                                              -- 9 tab
  Token.LineFeed,                                                -- 10
  Token.WhiteSpace, Token.WhiteSpace,                            -- 11, 12
  Token.CarriageReturn,                                          -- 13
  Token.Error, Token.Error, Token.Error, Token.Error,            -- 14 to 17
  Token.Error, Token.Error, Token.Error, Token.Error,            -- 18 to 21
  Token.Error, Token.Error, Token.Error, Token.Error,            -- 22 to 25
  Token.Error, Token.Error, Token.Error, Token.Error,            -- 26 to 29
  Token.Error, Token.Error,                                      -- 30, 31
  Token.WhiteSpace,                                              -- 32 space
  Token.Negate,                                                  -- 33 bang
  Token.StringLiteral,                                           -- 34 double quote
  Token.PrivateField,                                            -- 35 hash
  Token.Identifier,                                              -- 36 dollar
  Token.Modulo,                                                  -- 37 percent
  Token.BitwiseAnd,                                              -- 38 ampersand
  Token.StringLiteral,                                           -- 39 single quote
  Token.LeftParen, Token.RightParen,                             -- 40, 41
  Token.Multiply, Token.Add, Token.Comma, Token.Subtract,        -- 42 to 45
  Token.Period, Token.Divide,                                    -- 46, 47
  Token.LeadingZero,                                             -- 48 zero
  Token.NumericLiteral, Token.NumericLiteral, Token.NumericLiteral, -- 49 to 51
  Token.NumericLiteral, Token.NumericLiteral, Token.NumericLiteral, -- 52 to 54
  Token.NumericLiteral, Token.NumericLiteral, Token.NumericLiteral, -- 55 to 57
  Token.Colon, Token.Semicolon,                                  -- 58, 59
  Token.LessThan, Token.Assign, Token.GreaterThan,               -- 60 to 62
  Token.QuestionMark,                                            -- 63
  Token.Error,                                                   -- 64 at sign
  Token.Identifier, Token.Identifier, Token.Identifier, Token.Identifier, -- A to D
  Token.Identifier, Token.Identifier, Token.Identifier, Token.Identifier, -- E to H
  Token.Identifier, Token.Identifier, Token.Identifier, Token.Identifier, -- I to L
  Token.Identifier, Token.Identifier, Token.Identifier, Token.Identifier, -- M to P
  Token.Identifier, Token.Identifier, Token.Identifier, Token.Identifier, -- Q to T
  Token.Identifier, Token.Identifier, Token.Identifier, Token.Identifier, -- U to X
  Token.Identifier, Token.Identifier,                            -- Y, Z
  Token.LeftBracket,                                             -- 91
  Token.UnicodeEscapeIdStart,                                    -- 92 backslash
  Token.RightBracket,                                            -- 93
  Token.BitwiseXor,                                              -- 94
  Token.Identifier,                                              -- 95 underscore
  Token.TemplateTail,                                            -- 96 backtick
  Token.IdentifierOrKeyword,                                     -- 97 a
  Token.IdentifierOrKeyword,                                     -- 98 b
  Token.IdentifierOrKeyword,                                     -- 99 c
  Token.IdentifierOrKeyword,                                     -- 100 d
  Token.IdentifierOrKeyword,                                     -- 101 e
  Token.IdentifierOrKeyword,                                     -- 102 f
  Token.IdentifierOrKeyword,                                     -- 103 g
  Token.Identifier,                                              -- 104 h
  Token.IdentifierOrKeyword,                                     -- 105 i
  Token.Identifier,                                              -- 106 j
  Token.Identifier,                                              -- 107 k
  Token.IdentifierOrKeyword,                                     -- 108 l
  Token.Identifier,                                              -- 109 m
  Token.IdentifierOrKeyword,                                     -- 110 n
  Token.Identifier,                                              -- 111 o
  Token.IdentifierOrKeyword,                                     -- 112 p
  Token.Identifier,                                              -- 113 q
  Token.IdentifierOrKeyword,                                     -- 114 r
  Token.IdentifierOrKeyword,                                     -- 115 s
  Token.IdentifierOrKeyword,                                     -- 116 t
  Token.Identifier,                                              -- 117 u
  Token.IdentifierOrKeyword,                                     -- 118 v
  Token.IdentifierOrKeyword,                                     -- 119 w
  Token.Identifier,                                              -- 120 x
  Token.IdentifierOrKeyword,                                     -- 121 y
  Token.IdentifierOrKeyword,                                     -- 122 z
  Token.LeftBrace, Token.BitwiseOr, Token.RightBrace,            -- 123 to 125
  Token.Complement,                                              -- 126 tilde
  Token.Error]                                                   -- 127 delete

/-- Modelled from the spec (section 4.5): single-line comment skipper from
comments.ts (not part of src/): consume units until LF, CR, LS, PS, or end
of source.  Fueled loop; the caller supplies enough fuel for the whole
remaining buffer, so the fuel-exhausted arm (which behaves like the end of
the buffer) is never reached from the wrapper. -/
def skipSingleLineCommentGo : Nat → ParserState → ParserState
  | 0, st => st
  | fuel + 1, st =>
    if st.index < st.source.length then
      let c := charCodeAt st.source st.index
      if c = Chars.LineFeed ∨ c = Chars.CarriageReturn ∨
          c = Chars.LineSeparator ∨ c = Chars.ParagraphSeparator then st
      else skipSingleLineCommentGo fuel
        { st with index := st.index + 1, column := st.column + 1 }
    else st

/-- Modelled from the spec (section 4.5): skipSingleLineComment from
comments.ts: on exit refreshes nextCodePoint and sets preceding_line_break. -/
def skipSingleLineComment (st : ParserState) : ParserState :=
  let st1 := skipSingleLineCommentGo (st.source.length + 1 - st.index) st
  { st1 with
    nextCodePoint := charCodeAt st1.source st1.index
    precedingLineBreak := 1 }

/-- Modelled from the spec (section 4.5): multi-line comment skipper from
comments.ts: consume until the closing star slash; on each line terminator
bump line, reset column and set preceding_line_break; end of source before
the closing pair reports UnterminatedComment and yields 0; the result value
is 1 when no terminator was crossed and 2 when one was (the dispatcher only
distinguishes values below 1). -/
def skipMultiLineCommentGo : Nat → ParserState → Nat → Nat × ParserState
  | 0, st, res => (res, st)
  | fuel + 1, st, res =>
    if st.index < st.source.length then
      let c := charCodeAt st.source st.index
      if c = Chars.Asterisk ∧ charCodeAt st.source (st.index + 1) = Chars.Slash then
        (res, { st with
          index := st.index + 2
          column := st.column + 2
          nextCodePoint := charCodeAt st.source (st.index + 2) })
      else if c = Chars.CarriageReturn ∧
          charCodeAt st.source (st.index + 1) = Chars.LineFeed then
        skipMultiLineCommentGo fuel
          { st with
            index := st.index + 2
            column := 0
            line := st.line + 1
            precedingLineBreak := 1 } 2
      else if c = Chars.LineFeed ∨ c = Chars.CarriageReturn ∨
          c = Chars.LineSeparator ∨ c = Chars.ParagraphSeparator then
        skipMultiLineCommentGo fuel
          { st with
            index := st.index + 1
            column := 0
            line := st.line + 1
            precedingLineBreak := 1 } 2
      else skipMultiLineCommentGo fuel
        { st with index := st.index + 1, column := st.column + 1 } res
    else (0, report st Errors.UnterminatedComment)

/-- Modelled from the spec (section 4.5): skipMultiLineComment from
comments.ts; entered just past the opening slash star. -/
def skipMultiLineComment (st : ParserState) (_ctx : Context) : Nat × ParserState :=
  skipMultiLineCommentGo (st.source.length + 1 - st.index) st 1

/-- Modelled from the spec (section 4.2, slow path): one pass of the
identifier slow path from identifier.ts (not part of src/).  Consumes ASCII
identifier parts, BMP units in the ID tables, and surrogate pairs whose
combined scalar is in the ID tables (ID_Start at the first position,
ID_Continue after it), and counts the consumed code points.  Identifier
escape decoding (backslash u forms) is not modelled; no claim in this
development exercises an escaped identifier. -/
def scanIdentifierSlowPathGo : Nat → ParserState → Bool → Nat → Nat × ParserState
  | 0, st, _, count => (count, st)
  | fuel + 1, st, first, count =>
    let c := st.nextCodePoint
    if isAsciiIdPart c then
      scanIdentifierSlowPathGo fuel (advance st) false (count + 1)
    else if 0x7e < c ∧ (c &&& 0xf800) ≠ 0xd800 ∧
        (if first then unicodeIdStart c else unicodeIdContinue c) = true then
      scanIdentifierSlowPathGo fuel (advance st) false (count + 1)
    else if (c &&& 0xfc00) = 0xd800 ∧
        (charCodeAt st.source (st.index + 1) &&& 0xfc00) = 0xdc00 ∧
        ((if first then unicodeIdStart else unicodeIdContinue)
          (0x10000 + ((c &&& 0x3ff) <<< 10) +
            (charCodeAt st.source (st.index + 1) &&& 0x3ff))) = true then
      scanIdentifierSlowPathGo fuel
        { st with
          index := st.index + 2
          column := st.column + 1
          nextCodePoint := charCodeAt st.source (st.index + 2) } false (count + 1)
    else (count, st)

/-- Modelled from the spec (section 4.2): scanIdentifierSlowPath from
identifier.ts.  The first-position flag holds when nothing of the token has
been consumed yet.  When no code point at all can be consumed (a state the
original fast paths never hand to the slow path), the unit is rejected with
InvalidCharacter.  Keyword recognition over the cooked spelling is not
modelled; no claim observes the identifier-versus-keyword distinction. -/
def scanIdentifierSlowPath (st : ParserState) (_ctx : Context) : Token × ParserState :=
  let first := st.index = st.tokenPos
  let r := scanIdentifierSlowPathGo (st.source.length + 2 - st.index) st first 0
  if r.1 = 0 then (Token.Error, report r.2 Errors.InvalidCharacter)
  else (Token.Identifier, r.2)

/-- Modelled from the spec (section 4.2, fast path): the contiguous ASCII
identifier loop of scanIdentifierOrKeyword from identifier.ts. -/
def scanIdentifierOrKeywordGo : Nat → ParserState → ParserState
  | 0, st => st
  | fuel + 1, st =>
    if isAsciiIdPart st.nextCodePoint then
      scanIdentifierOrKeywordGo fuel (advance st)
    else st

/-- Modelled from the spec (section 4.2): scanIdentifierOrKeyword from
identifier.ts: consume the ASCII run; on a backslash or a unit above 0x7e
fall through to the slow path; otherwise an identifier.  The perfect-hash
keyword probe is not modelled (see scanIdentifierSlowPath). -/
def scanIdentifierOrKeyword (st : ParserState) (ctx : Context)
    (_canBeKeyword : Bool) : Token × ParserState :=
  let st1 := scanIdentifierOrKeywordGo (st.source.length + 1 - st.index) st
  if st1.nextCodePoint = Chars.Backslash ∨ 0x7e < st1.nextCodePoint then
    scanIdentifierSlowPath st1 ctx
  else (Token.Identifier, st1)

/-- Modelled from the spec (section 4.4, abridged): the quoted-string walker
of scanStringLiteral from string.ts (not part of src/).  Walks units to the
matching quote; bare CR or LF is UnterminatedString, as is the end of the
source; a backslash consumes the following unit as well (escape decoding
and the cooked value are not modelled; no claim reads string values). -/
def scanStringLiteralGo : Nat → ParserState → Nat → Token × ParserState
  | 0, st, _ => (Token.Error, report st Errors.UnterminatedString)
  | fuel + 1, st, quote =>
    if st.index < st.source.length then
      let c := charCodeAt st.source st.index
      if c = quote then (Token.StringLiteral, advance st)
      else if c = Chars.CarriageReturn ∨ c = Chars.LineFeed then
        (Token.Error, report st Errors.UnterminatedString)
      else if c = Chars.Backslash then
        scanStringLiteralGo fuel
          { st with
            index := st.index + 2
            column := st.column + 2
            nextCodePoint := charCodeAt st.source (st.index + 2) } quote
      else scanStringLiteralGo fuel (advance st) quote
    else (Token.Error, report st Errors.UnterminatedString)

/-- Modelled from the spec (section 4.4): scanStringLiteral from string.ts;
entered at the opening quote, which it consumes first. -/
def scanStringLiteral (st : ParserState) (_ctx : Context) (quote : Nat) :
    Token × ParserState :=
  scanStringLiteralGo (st.source.length + 2 - st.index) (advance st) quote

/-- Modelled from the spec (section 4.4, abridged): the template walker of
scanTemplate from string.ts: consume to the closing backtick (TemplateTail)
or to a dollar-brace (TemplateHead); the end of the source is
UnterminatedTemplate; a backslash consumes the following unit as well.
Cooked values and the template-depth bookkeeping are not modelled; no claim
reads them. -/
def scanTemplateGo : Nat → ParserState → Token × ParserState
  | 0, st => (Token.Error, report st Errors.UnterminatedTemplate)
  | fuel + 1, st =>
    if st.index < st.source.length then
      let c := charCodeAt st.source st.index
      if c = Chars.Backtick then (Token.TemplateTail, advance st)
      else if c = 0x24 ∧ charCodeAt st.source (st.index + 1) = 0x7b then
        (Token.TemplateHead, { st with
          index := st.index + 2
          column := st.column + 2
          nextCodePoint := charCodeAt st.source (st.index + 2) })
      else if c = Chars.Backslash then
        scanTemplateGo fuel
          { st with
            index := st.index + 2
            column := st.column + 2
            nextCodePoint := charCodeAt st.source (st.index + 2) }
      else scanTemplateGo fuel (advance st)
    else (Token.Error, report st Errors.UnterminatedTemplate)

/-- Modelled from the spec (section 4.4): scanTemplate from string.ts;
entered at the opening backtick, which it consumes first. -/
def scanTemplate (st : ParserState) (_ctx : Context) : Token × ParserState :=
  scanTemplateGo (st.source.length + 2 - st.index) (advance st)

/-- Modelled from the spec (section 4.3, abridged): the decimal digit run of
the numeric scanner from numeric.ts (not part of src/). -/
def scanDigitsGo : Nat → ParserState → ParserState
  | 0, st => st
  | fuel + 1, st =>
    if Chars.Zero ≤ st.nextCodePoint ∧ st.nextCodePoint ≤ Chars.Nine then
      scanDigitsGo fuel (advance st)
    else st

/-- Modelled from the spec (section 4.3, abridged): scanNumber from
numeric.ts: a decimal digit run, an optional fraction, and the post-digit
check that no identifier start follows (IdentifierAfterNumericLiteral).
Radix prefixes, exponents, separators, BigInt suffixes and the cooked double
are not modelled; no claim reads numeric values. -/
def scanNumber (st : ParserState) (_ctx : Context) (_nonOctal : Bool)
    (_isFractionStart : Bool) : Token × ParserState :=
  let st1 := scanDigitsGo (st.source.length + 1 - st.index) st
  let st2 :=
    if st1.nextCodePoint = Chars.Period then
      scanDigitsGo (st1.source.length + 1 - st1.index) (advance st1)
    else st1
  if isAsciiIdPart st2.nextCodePoint ∨ 0x7e < st2.nextCodePoint then
    (Token.Error, report st2 Errors.IdentifierAfterNumericLiteral)
  else (Token.NumericLiteral, st2)

/-- Modelled from the spec (section 4.3, abridged): scanLeadingZero from
numeric.ts; the legacy-octal and radix-prefix distinctions are folded into
the abridged scanNumber, which no claim observes. -/
def scanLeadingZero (st : ParserState) (ctx : Context) (_char : Nat) :
    Token × ParserState :=
  scanNumber st ctx true false

/-- Modelled from the spec (section 4.2, abridged): scanUnicodeEscapeIdStart
from identifier.ts, entered at a leading backslash.  The escape-decoded
identifier path is outside every claim of this development; the abridged
model reports InvalidUnicodeEscape and yields Error without consuming. -/
def scanUnicodeEscapeIdStart (st : ParserState) (_ctx : Context) :
    Token × ParserState :=
  (Token.Error, report st Errors.InvalidUnicodeEscape)

/-- Slice of the source buffer from a start offset (inclusive) to an end
offset (exclusive), the model of source.slice in regexp.ts. -/
def sliceUnits (source : List Nat) (a b : Nat) : List Nat :=
  (source.drop a).take (b - a)

/-- regexp.ts validate: asks the host engine to compile the bare pattern
(reporting UnterminatedRegExp on failure) and then the pattern with flags
(null on failure). -/
def validate (host : Host) (st : ParserState) (_ctx : Context)
    (pattern flags : List Nat) : TokenValue × ParserState :=
  if host.compilesBare pattern then
    (if host.compilesWithFlags pattern flags then TokenValue.regexpVal
     else TokenValue.nullVal, st)
  else (TokenValue.errorTokenVal, report st Errors.UnterminatedRegExp)

/-- regexp.ts scanRegularExpression, body loop: the two-bit preparse state
machine (Escape is bit 1, Class is bit 2).  The TypeScript statement
preparseState and-equals not-Escape is written as a mask with 2, and
right-bracket preparseState and-equals Escape as a mask with 1, both exactly
as the two-bit domain behaves.  The fueled zero arm mirrors the in-loop end
of source: report UnterminatedRegExp and return Error; the wrapper supplies
enough fuel that it is never reached. -/
def scanRegExpBodyGo : Nat → Nat → ParserState → Except (Token × ParserState) ParserState
  | 0, _, st => Except.error (Token.Error, report st Errors.UnterminatedRegExp)
  | fuel + 1, preparseState, st =>
    let ch := st.nextCodePoint
    let st := advance st
    if preparseState &&& 1 ≠ 0 then
      let preparseState := preparseState &&& 2
      if st.source.length ≤ st.index then
        Except.error (Token.Error, report st Errors.UnterminatedRegExp)
      else scanRegExpBodyGo fuel preparseState st
    else if ch = Chars.Slash ∧ preparseState = 0 then Except.ok st
    else if ch = Chars.CarriageReturn ∨ ch = Chars.LineFeed ∨
        ch = Chars.LineSeparator ∨ ch = Chars.ParagraphSeparator then
      Except.error (Token.Error, report st Errors.UnterminatedRegExp)
    else
      let preparseState :=
        if ch = Chars.Backslash then preparseState ||| 1
        else if ch = 0x5b then preparseState ||| 2
        else if ch = 0x5d then preparseState &&& 1
        else preparseState
      if st.source.length ≤ st.index then
        Except.error (Token.Error, report st Errors.UnterminatedRegExp)
      else scanRegExpBodyGo fuel preparseState st

/-- regexp.ts scanRegularExpression, flag loop: the RegexFlags mask uses the
bit constants of the source enum (IgnoreCase 1, Global 2, Multiline 4,
Sticky 8, Unicode 16, DotAll 0b1100).  A duplicate g reports and keeps
scanning; duplicate i, m, u, y, s report and return Error; any other
identifier part reports UnexpectedTokenRegExpFlag and returns Error. -/
def scanRegExpFlagsGo : Nat → Nat → ParserState → Except (Token × ParserState) ParserState
  | 0, _, st => Except.ok st
  | fuel + 1, mask, st =>
    let char := st.nextCodePoint
    if isIdentifierPart char then
      if char = Chars.LowerG then
        let st := if mask &&& 2 ≠ 0 then report st Errors.DuplicateRegExpFlag else st
        scanRegExpFlagsGo fuel (mask ||| 2) (advance st)
      else if char = Chars.LowerI then
        if mask &&& 1 ≠ 0 then
          Except.error (Token.Error, report st Errors.DuplicateRegExpFlag)
        else scanRegExpFlagsGo fuel (mask ||| 1) (advance st)
      else if char = Chars.LowerM then
        if mask &&& 4 ≠ 0 then
          Except.error (Token.Error, report st Errors.DuplicateRegExpFlag)
        else scanRegExpFlagsGo fuel (mask ||| 4) (advance st)
      else if char = Chars.LowerU then
        if mask &&& 16 ≠ 0 then
          Except.error (Token.Error, report st Errors.DuplicateRegExpFlag)
        else scanRegExpFlagsGo fuel (mask ||| 16) (advance st)
      else if char = Chars.LowerY then
        if mask &&& 8 ≠ 0 then
          Except.error (Token.Error, report st Errors.DuplicateRegExpFlag)
        else scanRegExpFlagsGo fuel (mask ||| 8) (advance st)
      else if char = Chars.LowerS then
        if mask &&& 12 ≠ 0 then
          Except.error (Token.Error, report st Errors.DuplicateRegExpFlag)
        else scanRegExpFlagsGo fuel (mask ||| 12) (advance st)
      else Except.error (Token.Error, report st Errors.UnexpectedTokenRegExpFlag)
    else Except.ok st

/-- regexp.ts scanRegularExpression: delimit the body with the preparse
state machine, then the flags, then record the pattern and flag slices, the
raw slice when OptionsRaw is set, and the validated token value.  The token
returned on success is RegularExpression regardless of the validation
outcome. -/
def scanRegularExpression (host : Host) (st : ParserState) (ctx : Context) :
    Token × ParserState :=
  let bodyStart := st.index
  match scanRegExpBodyGo (st.source.length + 2 - st.index) 0 st with
  | Except.error r => r
  | Except.ok st1 =>
    let bodyEnd := st1.index - 1
    let flagStart := st1.index
    match scanRegExpFlagsGo (st1.source.length + 2 - st1.index) 0 st1 with
    | Except.error r => r
    | Except.ok st2 =>
      let flags := sliceUnits st2.source flagStart st2.index
      let pattern := sliceUnits st2.source bodyStart bodyEnd
      let st2 := { st2 with tokenRegExp := some (pattern, flags) }
      let st2 :=
        if ctx.optionsRaw then
          { st2 with tokenRaw := sliceUnits st2.source st2.tokenPos st2.index }
        else st2
      let r := validate host st2 ctx pattern flags
      (Token.RegularExpression, { r.2 with tokenValue := r.1 })

/-- The outcome of one iteration of the scanSingleToken dispatch loop: a
return of a token, or a continue carrying the updated state and the updated
lastIsCR local. -/
inductive Step where
  | done : Token → ParserState → Step
  | cont : ParserState → Nat → Step
  deriving Repr

/-- scan.ts lines 181 to 190, the LineFeed arm of the switch, which the
CarriageReturn arm falls through into: set precedingLineBreak, consume the
unit without touching column, and count the line unless lastIsCR is set at
this point; lastIsCR is 0 for the next iteration. -/
def lineFeedTail (st : ParserState) (lastIsCR : Nat) : Step :=
  let st := { st with
    precedingLineBreak := 1
    index := st.index + 1
    nextCodePoint := charCodeAt st.source (st.index + 1) }
  let st := if lastIsCR = 0 then { st with column := 0, line := st.line + 1 } else st
  Step.cont st 0

/-- scan.ts Period arm: period, ellipsis, or a fraction-start numeric. -/
def periodCase (st : ParserState) (ctx : Context) : Step :=
  let st1 := advance st
  let next := st1.nextCodePoint
  if Chars.Zero ≤ next ∧ next ≤ Chars.Nine then
    let r := scanNumber st1 ctx false true
    Step.done r.1 r.2
  else if next = Chars.Period then
    let index := st1.index + 1
    if index < st1.source.length ∧ charCodeAt st1.source index = Chars.Period then
      Step.done Token.Ellipsis { st1 with
        column := st1.column + 2
        index := st1.index + 2
        nextCodePoint := charCodeAt st1.source (st1.index + 2) }
    else Step.done Token.Period st1
  else Step.done Token.Period st1

/-- scan.ts LessThan arm: less-than, shifts, and the HTML open comment
sequence, which the code consumes with no test of the Module context bit;
the ShiftLeftAssign return bumps index without refreshing nextCodePoint,
exactly as the source line parser.index plus plus does. -/
def lessThanCase (st : ParserState) (lastIsCR : Nat) : Step :=
  let st1 := advance st
  if st1.index < st1.source.length then
    if st1.nextCodePoint = Chars.LessThan then
      let st2 := advance st1
      if st2.nextCodePoint = Chars.EqualSign then
        Step.done Token.ShiftLeftAssign { st2 with index := st2.index + 1 }
      else Step.done Token.ShiftLeft st2
    else if st1.nextCodePoint = Chars.EqualSign then
      Step.done Token.LessThanOrEqual (advance st1)
    else if st1.nextCodePoint = Chars.Exclamation ∧
        charCodeAt st1.source (st1.index + 2) = Chars.Hyphen ∧
        charCodeAt st1.source (st1.index + 1) = Chars.Hyphen then
      let st2 := { st1 with index := st1.index + 2, column := st1.column + 3 }
      Step.cont (skipSingleLineComment st2) lastIsCR
    else Step.done Token.LessThan st1
  else Step.done Token.LessThan st1

/-- scan.ts QuestionMark arm: question mark, coalesce and optional chaining
under OptionsNext; the digit test after the period is the source comparison
ch greater than Nine or ch less than or equal to Zero on the unit after the
period (forced through a bitwise or with 0, hence 0 out of range). -/
def questionMarkCase (st : ParserState) (ctx : Context) : Step :=
  let st1 := advance st
  let ch := st1.nextCodePoint
  if ctx.optionsNext then
    if st1.nextCodePoint = Chars.QuestionMark then
      Step.done Token.Coalesce (advance st1)
    else if ch = Chars.Period then
      let ch2 := charCodeAt st1.source (st1.index + 1)
      if Chars.Nine < ch2 ∨ ch2 ≤ Chars.Zero then
        Step.done Token.QuestionMarkPeriod (advance st1)
      else Step.done Token.QuestionMark st1
    else Step.done Token.QuestionMark st1
  else Step.done Token.QuestionMark st1

/-- scan.ts Assign arm: assign, loose and strict equality, arrow. -/
def assignCase (st : ParserState) : Step :=
  let st1 := advance st
  if st1.source.length ≤ st1.index then Step.done Token.Assign st1
  else
    let char := st1.nextCodePoint
    if char = Chars.EqualSign then
      let st2 := advance st1
      if st2.nextCodePoint = Chars.EqualSign then
        Step.done Token.StrictEqual (advance st2)
      else Step.done Token.LooseEqual st2
    else if char = Chars.GreaterThan then Step.done Token.Arrow (advance st1)
    else Step.done Token.Assign st1

/-- scan.ts Negate arm: negate, loose and strict inequality. -/
def negateCase (st : ParserState) : Step :=
  let st1 := advance st
  if st1.nextCodePoint ≠ Chars.EqualSign then Step.done Token.Negate st1
  else
    let st2 := advance st1
    if st2.nextCodePoint ≠ Chars.EqualSign then Step.done Token.LooseNotEqual st2
    else Step.done Token.StrictNotEqual (advance st2)

/-- scan.ts Modulo arm. -/
def moduloCase (st : ParserState) : Step :=
  let st1 := advance st
  if st1.nextCodePoint ≠ Chars.EqualSign then Step.done Token.Modulo st1
  else Step.done Token.ModuloAssign (advance st1)

/-- scan.ts Multiply arm: multiply, multiply-assign, exponentiate. -/
def multiplyCase (st : ParserState) : Step :=
  let st1 := advance st
  if st1.source.length ≤ st1.index then Step.done Token.Multiply st1
  else
    let char := st1.nextCodePoint
    if char = Chars.EqualSign then Step.done Token.MultiplyAssign (advance st1)
    else if char ≠ Chars.Asterisk then Step.done Token.Multiply st1
    else
      let st2 := advance st1
      if st2.nextCodePoint ≠ Chars.EqualSign then Step.done Token.Exponentiate st2
      else Step.done Token.ExponentiateAssign (advance st2)

/-- scan.ts BitwiseXor arm. -/
def bitwiseXorCase (st : ParserState) : Step :=
  let st1 := advance st
  if st1.nextCodePoint ≠ Chars.EqualSign then Step.done Token.BitwiseXor st1
  else Step.done Token.BitwiseXorAssign (advance st1)

/-- scan.ts Add arm: add, increment, add-assign. -/
def addCase (st : ParserState) : Step :=
  let st1 := advance st
  if st1.source.length ≤ st1.index then Step.done Token.Add st1
  else
    let char := st1.nextCodePoint
    if char = Chars.Plus then Step.done Token.Increment (advance st1)
    else if char = Chars.EqualSign then Step.done Token.AddAssign (advance st1)
    else Step.done Token.Add st1

/-- scan.ts Subtract arm: subtract, decrement, subtract-assign, and the HTML
close comment at the start of a line or after a line break outside Module
context, rejected with HtmlCommentInWebCompat when DisableWebCompat is
set. -/
def subtractCase (st : ParserState) (ctx : Context) (isStartOfLine : Bool)
    (lastIsCR : Nat) : Step :=
  let st1 := advance st
  if st1.source.length ≤ st1.index then Step.done Token.Subtract st1
  else
    let char := st1.nextCodePoint
    if char = Chars.Hyphen then
      let st2 := advance st1
      if ctx.module = false ∧ (st2.precedingLineBreak = 1 ∨ isStartOfLine) ∧
          st2.nextCodePoint = Chars.GreaterThan then
        if ctx.disableWebCompat then
          Step.done Token.Error (report st2 Errors.HtmlCommentInWebCompat)
        else Step.cont (skipSingleLineComment st2) lastIsCR
      else Step.done Token.Decrement st2
    else if char = Chars.EqualSign then Step.done Token.SubtractAssign (advance st1)
    else Step.done Token.Subtract st1

/-- scan.ts Divide arm: comments, regular expressions under AllowRegExp,
divide-assign, divide. -/
def divideCase (host : Host) (st : ParserState) (ctx : Context)
    (lastIsCR : Nat) : Step :=
  let st1 := advance st
  let char := st1.nextCodePoint
  if char = Chars.Slash then
    Step.cont (skipSingleLineComment (advance st1)) lastIsCR
  else if char = Chars.Asterisk then
    let st2 := advance st1
    let r := skipMultiLineComment st2 ctx
    if r.1 < 1 then Step.done Token.Error r.2
    else Step.cont r.2 lastIsCR
  else if ctx.allowRegExp then
    let r := scanRegularExpression host st1 ctx
    Step.done r.1 r.2
  else if char = Chars.EqualSign then Step.done Token.DivideAssign (advance st1)
  else Step.done Token.Divide st1

/-- scan.ts BitwiseOr arm. -/
def bitwiseOrCase (st : ParserState) : Step :=
  let st1 := advance st
  if st1.source.length ≤ st1.index then Step.done Token.BitwiseOr st1
  else
    let char := st1.nextCodePoint
    if char = Chars.VerticalBar then Step.done Token.LogicalOr (advance st1)
    else if char = Chars.EqualSign then Step.done Token.BitwiseOrAssign (advance st1)
    else Step.done Token.BitwiseOr st1

/-- scan.ts GreaterThan arm: the full shift-right family. -/
def greaterThanCase (st : ParserState) : Step :=
  let st1 := advance st
  if st1.source.length ≤ st1.index then Step.done Token.GreaterThan st1
  else
    let char := st1.nextCodePoint
    if char = Chars.EqualSign then Step.done Token.GreaterThanOrEqual (advance st1)
    else if char ≠ Chars.GreaterThan then Step.done Token.GreaterThan st1
    else
      let st2 := advance st1
      if st2.nextCodePoint = Chars.GreaterThan then
        let st3 := advance st2
        if st3.nextCodePoint ≠ Chars.EqualSign then
          Step.done Token.LogicalShiftRight st3
        else Step.done Token.LogicalShiftRightAssign (advance st3)
      else if st2.nextCodePoint = Chars.EqualSign then
        Step.done Token.ShiftRightAssign (advance st2)
      else Step.done Token.ShiftRight st2

/-- scan.ts BitwiseAnd arm. -/
def bitwiseAndCase (st : ParserState) : Step :=
  let st1 := advance st
  if st1.source.length ≤ st1.index then Step.done Token.BitwiseAnd st1
  else
    let char := st1.nextCodePoint
    if char = Chars.Ampersand then Step.done Token.LogicalAnd (advance st1)
    else if char = Chars.EqualSign then Step.done Token.BitwiseAndAssign (advance st1)
    else Step.done Token.BitwiseAnd st1

/-- scan.ts lines 490 to 522, the tail reached when the switch falls through
or the unit is above 0x7e: LS and PS line terminators, the high-surrogate or
ID_Start branch whose inner block tests the same masked unit for 0xdc00 and
combines with the source formula that reads the same unit twice, the exotic
whitespace skip, and the InvalidCharacter report. -/
def tailCase (st : ParserState) (ctx : Context) (char : Nat)
    (lastIsCR : Nat) : Step :=
  if (char ^^^ Chars.LineSeparator) ≤ 1 then
    let st := { st with
      precedingLineBreak := 1
      index := st.index + 1
      nextCodePoint := charCodeAt st.source (st.index + 1)
      column := 0
      line := st.line + 1 }
    Step.cont st 0
  else if (char &&& 0xfc00) = 0xd800 ∨ unicodeIdStart char then
    if (char &&& 0xfc00) = 0xdc00 then
      let char2 := ((char &&& 0x3ff) <<< 10) ||| (char &&& 0x3ff) ||| 0x10000
      if unicodeIdContinue char2 = false then
        Step.done Token.Error (report st Errors.InvalidSMPCharacter)
      else
        let st := { st with
          index := st.index + 1
          nextCodePoint := char2
          column := st.column + 1 }
        let r := scanIdentifierSlowPath st ctx
        Step.done r.1 r.2
    else
      let r := scanIdentifierSlowPath st ctx
      Step.done r.1 r.2
  else if isExoticECMAScriptWhitespace char then
    Step.cont (advance st) lastIsCR
  else Step.done Token.Error (report st Errors.InvalidCharacter)

/-- One iteration of the scanSingleToken while loop (scan.ts lines 149 to
523), entered only when index is below the length: set tokenPos, read the
cached unit, dispatch through firstCharKinds when it is at most 0x7e, and
otherwise through the tail. -/
def scanBody (host : Host) (ctx : Context) (isStartOfLine : Bool)
    (st0 : ParserState) (lastIsCR : Nat) : Step :=
  let st := { st0 with tokenPos := st0.index }
  let char := st.nextCodePoint
  if char ≤ 0x7e then
    let token := firstCharKinds.getD char Token.Error
    match token with
    | Token.RightBrace | Token.LeftBrace | Token.Comma | Token.Colon
    | Token.Complement | Token.LeftParen | Token.RightParen | Token.Semicolon
    | Token.LeftBracket | Token.RightBracket | Token.Error =>
      Step.done token (advance st)
    | Token.WhiteSpace => Step.cont (advance st) lastIsCR
    | Token.CarriageReturn =>
      lineFeedTail { st with column := 0, line := st.line + 1 } 1
    | Token.LineFeed => lineFeedTail st lastIsCR
    | Token.IdentifierOrKeyword =>
      let r := scanIdentifierOrKeyword st ctx true
      Step.done r.1 r.2
    | Token.Identifier =>
      let r := scanIdentifierOrKeyword st ctx false
      Step.done r.1 r.2
    | Token.StringLiteral =>
      let r := scanStringLiteral st ctx char
      Step.done r.1 r.2
    | Token.NumericLiteral =>
      let r := scanNumber st ctx false false
      Step.done r.1 r.2
    | Token.LeadingZero =>
      let r := scanLeadingZero st ctx char
      Step.done r.1 r.2
    | Token.UnicodeEscapeIdStart =>
      let r := scanUnicodeEscapeIdStart st ctx
      Step.done r.1 r.2
    | Token.TemplateTail =>
      let r := scanTemplate st ctx
      Step.done r.1 r.2
    | Token.Period => periodCase st ctx
    | Token.LessThan => lessThanCase st lastIsCR
    | Token.QuestionMark => questionMarkCase st ctx
    | Token.Assign => assignCase st
    | Token.Negate => negateCase st
    | Token.Modulo => moduloCase st
    | Token.Multiply => multiplyCase st
    | Token.BitwiseXor => bitwiseXorCase st
    | Token.Add => addCase st
    | Token.Subtract => subtractCase st ctx isStartOfLine lastIsCR
    | Token.Divide => divideCase host st ctx lastIsCR
    | Token.BitwiseOr => bitwiseOrCase st
    | Token.GreaterThan => greaterThanCase st
    | Token.BitwiseAnd => bitwiseAndCase st
    | _ => tailCase st ctx char lastIsCR
  else tailCase st ctx char lastIsCR

/-- The scanSingleToken while loop, fueled: with the loop condition false the
result is EndOfSource with the state untouched; a Step.done returns; a
Step.cont loops.  The wrapper supplies fuel strictly above the remaining
unit count, which the termination theorem shows is always enough. -/
def scanLoop (host : Host) (ctx : Context) (isStartOfLine : Bool) :
    Nat → ParserState → Nat → Option (Token × ParserState)
  | 0, _, _ => none
  | fuel + 1, st, lastIsCR =>
    if st.index < st.source.length then
      match scanBody host ctx isStartOfLine st lastIsCR with
      | Step.done t s => some (t, s)
      | Step.cont s l => scanLoop host ctx isStartOfLine fuel s l
    else some (Token.EndOfSource, st)

/-- scan.ts scanSingleToken: lastIsCR starts at 0, isStartOfLine holds when
the index is 0, then the dispatch loop runs with enough fuel for the whole
remaining buffer. -/
def scanSingleToken (host : Host) (ctx : Context) (st : ParserState) :
    Option (Token × ParserState) :=
  scanLoop host ctx (st.index = 0) (st.source.length - st.index + 1) st 0

/-- scan.ts nextToken: clear precedingLineBreak, record startPos, scan one
token and store it in the state. -/
def nextToken (host : Host) (ctx : Context) (st : ParserState) :
    Option (Token × ParserState) :=
  let st := { st with precedingLineBreak := 0, startPos := st.index }
  match scanSingleToken host ctx st with
  | some (t, st1) => some (t, { st1 with token := t })
  | none => none

/-- Modelled from the spec (section 3): the parser state at the start of a
parse: cursor at offset 0, line 1, column 0, the cached unit read from the
buffer (0 when the buffer is empty), no diagnostics, no line break seen. -/
def initialState (source : List Nat) : ParserState :=
  { source := source
    index := 0
    nextCodePoint := charCodeAt source 0
    line := 1
    column := 0
    tokenPos := 0
    startPos := 0
    precedingLineBreak := 0
    token := Token.EndOfSource
    diagnostics := []
    tokenRegExp := none
    tokenRaw := []
    tokenValue := TokenValue.noneVal }

/-- A host engine on which every pattern compiles; the claims below never
depend on the host verdict. -/
def hostTrue : Host :=
  { compilesBare := fun _ => true
    compilesWithFlags := fun _ _ => true }

/-- The empty context: script mode, no options. -/
def ctx0 : Context :=
  { strict := false
    module := false
    allowRegExp := false
    optionsNext := false
    optionsRaw := false
    disableWebCompat := false }

/-- Module context. -/
def ctxModule : Context :=
  { ctx0 with module := true }

/-- Context with OptionsNext set. -/
def ctxNext : Context :=
  { ctx0 with optionsNext := true }

/-- Context with AllowRegExp set. -/
def ctxRegExp : Context :=
  { ctx0 with allowRegExp := true }

/-- C1: the claim states that a less-than unit followed by bang hyphen
hyphen is consumed as an HTML single-line comment only outside Module
context, and that in Module context the scanner returns LessThan.  In the
code the Exclamation branch of the LessThan arm carries no test of the
Module bit, so the sequence is consumed as a comment in Module context as
well: on the source consisting of the four units of the open-comment
sequence, scanning under the Module context consumes everything and returns
EndOfSource instead of the claimed LessThan, exactly as it does in script
context. -/
theorem c1_html_open_not_gated_by_module :
    (scanSingleToken hostTrue ctxModule (initialState [60, 33, 45, 45])).map
      (fun r => (r.1, r.2.diagnostics)) = some (Token.EndOfSource, []) ∧
    (scanSingleToken hostTrue ctx0 (initialState [60, 33, 45, 45])).map
      (fun r => (r.1, r.2.diagnostics)) = some (Token.EndOfSource, []) := by
  decide

/-- C2: the claim states that every Error return of scanSingleToken records
a diagnostic during the call.  The Error entries of the first-char table are
grouped with the single-unit punctuators and return after a bare advance, so
on the source consisting of the single at-sign unit the scanner returns
Error with the diagnostics list still empty. -/
theorem c2_error_token_without_diagnostic :
    (scanSingleToken hostTrue ctx0 (initialState [64])).map
      (fun r => (r.1, r.2.diagnostics)) = some (Token.Error, []) := by
  decide

/-- C3: the claim states that CR immediately followed by LF counts as one
line terminator, so that on the source consisting only of CRLF the state
ends with line 2 and column 0.  The CarriageReturn arm falls through into
the LineFeed arm, which resets the lastIsCR local at the end of the same
iteration, so the following LF iteration sees lastIsCR equal to 0 and
increments line a second time: the state ends with line 3 and column 0. -/
theorem c3_crlf_counted_twice :
    (nextToken hostTrue ctx0 (initialState [13, 10])).map
      (fun r => (r.1, r.2.line, r.2.column)) = some (Token.EndOfSource, 3, 0) := by
  decide

/-- C4: the claim states that the flag loop of scanRegularExpression accepts
each of g i m u y s d at most once.  The switch has no arm for the d flag,
so d falls to the default arm: on the regular expression with body a and the
single flag d the scanner reports UnexpectedTokenRegExpFlag and returns
Error instead of accepting the flag. -/
theorem c4_flag_d_rejected :
    (scanSingleToken hostTrue ctxRegExp (initialState [47, 97, 47, 100])).map
      (fun r => (r.1, r.2.diagnostics)) =
      some (Token.Error, [Errors.UnexpectedTokenRegExpFlag]) := by
  decide

/-- C5: the claim states that under OptionsNext a question mark followed by
a period yields QuestionMarkPeriod only when the unit after the period is
not a decimal digit, and QuestionMark when it is any of the digits 0 to 9.
The source comparison accepts units less than or equal to the code of 0, so
on the three units question mark, period, digit 0 the scanner returns
QuestionMarkPeriod; the digits 1 to 9 behave as claimed, as the second
conjunct shows for the digit 5. -/
theorem c5_optional_chain_splits_on_zero_digit :
    (scanSingleToken hostTrue ctxNext (initialState [63, 46, 48])).map
      (fun r => r.1) = some Token.QuestionMarkPeriod ∧
    (scanSingleToken hostTrue ctxNext (initialState [63, 46, 53])).map
      (fun r => r.1) = some Token.QuestionMark := by
  decide

/-- C6: the claim states that a high surrogate followed by a low surrogate
is combined into the astral scalar and checked against ID_Start, deciding
between an identifier and an InvalidSMPCharacter error.  The inner branch
of the dispatcher tests the same masked unit for 0xdc00 that the outer
branch constrained to 0xd800, so the combine never runs and the
InvalidSMPCharacter report is unreachable; the raw high surrogate is handed
to the identifier slow path instead.  On the surrogate pair encoding the
emoji scalar 0x1f600, which is not ID_Start, the scanner reports
InvalidCharacter, not the claimed InvalidSMPCharacter, and consumes
nothing. -/
theorem c6_surrogate_pair_not_combined :
    (scanSingleToken hostTrue ctx0 (initialState [0xd83d, 0xde00])).map
      (fun r => (r.1, r.2.diagnostics, r.2.index)) =
      some (Token.Error, [Errors.InvalidCharacter], 0) := by
  decide

/-- C7: the claim states the invariant that nextCodePoint equals the source
unit at index whenever index is below the length, and 0 at the end, after
every scanner operation.  The ShiftLeftAssign return bumps index with a bare
increment and never refreshes nextCodePoint: after scanning the three-unit
shift-left-assign punctuator followed by the letter a, index is 3 where the
source holds 97, while nextCodePoint still holds 61, the equal sign. -/
theorem c7_next_code_point_stale_after_shift_left_assign :
    (scanSingleToken hostTrue ctx0 (initialState [60, 60, 61, 97])).map
      (fun r => (r.1, r.2.index, r.2.nextCodePoint, charCodeAt r.2.source r.2.index)) =
      some (Token.ShiftLeftAssign, 3, 61, 97) := by
  decide

/-- C8: the claim states that the units above 0x7e silently skipped are
exactly LS, PS, NBSP, BOM and the Zs category.  isExoticECMAScriptWhitespace
also accepts NextLine 0x85, which is in none of those sets (it is a Cc
control), and its quad range runs one past the Zs block up to
ZeroWidthSpace 0x200b; on the source consisting of the single unit 0x85 the
scanner consumes it as whitespace and returns EndOfSource with no
diagnostic, instead of the InvalidCharacter error the claimed set forces. -/
theorem c8_nel_and_zwsp_skipped_as_whitespace :
    isExoticECMAScriptWhitespace 0x85 = true ∧
    isExoticECMAScriptWhitespace 0x200b = true ∧
    (scanSingleToken hostTrue ctx0 (initialState [0x85])).map
      (fun r => (r.1, r.2.diagnostics)) = some (Token.EndOfSource, []) := by
  decide

/-- C9: in the flag loop of scanRegularExpression a duplicate g reports
DuplicateRegExpFlag and keeps scanning, and the scan still returns
RegularExpression; a duplicate i, m, u, y or s reports the same diagnostic
and returns Error at once.  Each conjunct scans the regular expression with
body a and the doubled flag. -/
theorem c9_duplicate_g_flag_continues :
    (scanSingleToken hostTrue ctxRegExp (initialState [47, 97, 47, 103, 103])).map
      (fun r => (r.1, r.2.diagnostics)) =
      some (Token.RegularExpression, [Errors.DuplicateRegExpFlag]) ∧
    (scanSingleToken hostTrue ctxRegExp (initialState [47, 97, 47, 105, 105])).map
      (fun r => (r.1, r.2.diagnostics)) =
      some (Token.Error, [Errors.DuplicateRegExpFlag]) ∧
    (scanSingleToken hostTrue ctxRegExp (initialState [47, 97, 47, 109, 109])).map
      (fun r => (r.1, r.2.diagnostics)) =
      some (Token.Error, [Errors.DuplicateRegExpFlag]) ∧
    (scanSingleToken hostTrue ctxRegExp (initialState [47, 97, 47, 117, 117])).map
      (fun r => (r.1, r.2.diagnostics)) =
      some (Token.Error, [Errors.DuplicateRegExpFlag]) ∧
    (scanSingleToken hostTrue ctxRegExp (initialState [47, 97, 47, 121, 121])).map
      (fun r => (r.1, r.2.diagnostics)) =
      some (Token.Error, [Errors.DuplicateRegExpFlag]) ∧
    (scanSingleToken hostTrue ctxRegExp (initialState [47, 97, 47, 115, 115])).map
      (fun r => (r.1, r.2.diagnostics)) =
      some (Token.Error, [Errors.DuplicateRegExpFlag]) := by
  decide

/-- The single-line comment skipper loop never moves the cursor backwards
and never touches the source buffer. -/
theorem skipSingleLineCommentGo_spec (fuel : Nat) :
    ∀ st : ParserState,
      st.index ≤ (skipSingleLineCommentGo fuel st).index ∧
      (skipSingleLineCommentGo fuel st).source = st.source := by
  induction fuel with
  | zero => intro st; exact ⟨Nat.le_refl _, rfl⟩
  | succ n ih =>
    intro st
    simp only [skipSingleLineCommentGo]
    split
    · split
      · exact ⟨Nat.le_refl _, rfl⟩
      · have h := ih { st with index := st.index + 1, column := st.column + 1 }
        exact ⟨Nat.le_trans (Nat.le_succ _) h.1, h.2⟩
    · exact ⟨Nat.le_refl _, rfl⟩

/-- The single-line comment skipper never moves the cursor backwards and
never touches the source buffer. -/
theorem skipSingleLineComment_spec (st : ParserState) :
    st.index ≤ (skipSingleLineComment st).index ∧
    (skipSingleLineComment st).source = st.source := by
  have h := skipSingleLineCommentGo_spec (st.source.length + 1 - st.index) st
  exact ⟨h.1, h.2⟩

/-- The multi-line comment skipper loop never moves the cursor backwards and
never touches the source buffer. -/
theorem skipMultiLineCommentGo_spec (fuel : Nat) :
    ∀ (st : ParserState) (res : Nat),
      st.index ≤ (skipMultiLineCommentGo fuel st res).2.index ∧
      (skipMultiLineCommentGo fuel st res).2.source = st.source := by
  induction fuel with
  | zero => intro st res; exact ⟨Nat.le_refl _, rfl⟩
  | succ n ih =>
    intro st res
    simp only [skipMultiLineCommentGo]
    split
    · split
      · exact ⟨Nat.le_add_right _ _, rfl⟩
      · split
        · have h := ih { st with
            index := st.index + 2
            column := 0
            line := st.line + 1
            precedingLineBreak := 1 } 2
          exact ⟨Nat.le_trans (Nat.le_add_right st.index 2) h.1, h.2⟩
        · split
          · have h := ih { st with
              index := st.index + 1
              column := 0
              line := st.line + 1
              precedingLineBreak := 1 } 2
            exact ⟨Nat.le_trans (Nat.le_succ _) h.1, h.2⟩
          · have h := ih { st with index := st.index + 1, column := st.column + 1 } res
            exact ⟨Nat.le_trans (Nat.le_succ _) h.1, h.2⟩
    · exact ⟨Nat.le_refl _, rfl⟩

/-- The multi-line comment skipper never moves the cursor backwards and
never touches the source buffer. -/
theorem skipMultiLineComment_spec (st : ParserState) (ctx : Context) :
    st.index ≤ (skipMultiLineComment st ctx).2.index ∧
    (skipMultiLineComment st ctx).2.source = st.source :=
  skipMultiLineCommentGo_spec (st.source.length + 1 - st.index) st 1

/-- A continue step built from a plain advance moves the cursor strictly
forward on the same buffer. -/
theorem cont_advance_spec (s s' : ParserState) (a l' : Nat)
    (h : Step.cont (advance s) a = Step.cont s' l') :
    s.index < s'.index ∧ s'.source = s.source := by
  have h1 : advance s = s' := by injection h
  subst h1
  exact ⟨Nat.lt_succ_self _, rfl⟩

/-- The shared LineFeed arm always continues one unit further on the same
buffer. -/
theorem lineFeedTail_cont (st : ParserState) (lastIsCR : Nat)
    (s' : ParserState) (l' : Nat)
    (h : lineFeedTail st lastIsCR = Step.cont s' l') :
    st.index < s'.index ∧ s'.source = st.source := by
  simp only [lineFeedTail] at h
  split at h
  · injection h with h1 h2
    subst h1
    exact ⟨Nat.lt_succ_self _, rfl⟩
  · injection h with h1 h2
    subst h1
    exact ⟨Nat.lt_succ_self _, rfl⟩

/-- When the LessThan arm continues (the HTML open comment), the cursor has
moved strictly forward on the same buffer. -/
theorem lessThanCase_cont (st : ParserState) (lastIsCR : Nat)
    (s' : ParserState) (l' : Nat)
    (h : lessThanCase st lastIsCR = Step.cont s' l') :
    st.index < s'.index ∧ s'.source = st.source := by
  simp only [lessThanCase] at h
  split at h
  · split at h
    · split at h
      · exact Step.noConfusion h
      · exact Step.noConfusion h
    · split at h
      · exact Step.noConfusion h
      · split at h
        · injection h with h1 h2
          subst h1
          refine ⟨Nat.lt_of_lt_of_le ?_ (skipSingleLineComment_spec _).1, ?_⟩
          · show st.index < st.index + 1 + 2
            omega
          · rw [(skipSingleLineComment_spec _).2]
            rfl
        · exact Step.noConfusion h
  · exact Step.noConfusion h

/-- When the Subtract arm continues (the HTML close comment), the cursor has
moved strictly forward on the same buffer. -/
theorem subtractCase_cont (st : ParserState) (ctx : Context)
    (isStartOfLine : Bool) (lastIsCR : Nat) (s' : ParserState) (l' : Nat)
    (h : subtractCase st ctx isStartOfLine lastIsCR = Step.cont s' l') :
    st.index < s'.index ∧ s'.source = st.source := by
  simp only [subtractCase] at h
  split at h
  · exact Step.noConfusion h
  · split at h
    · split at h
      · split at h
        · exact Step.noConfusion h
        · injection h with h1 h2
          subst h1
          refine ⟨Nat.lt_of_lt_of_le ?_ (skipSingleLineComment_spec _).1, ?_⟩
          · show st.index < st.index + 1 + 1
            omega
          · rw [(skipSingleLineComment_spec _).2]
            rfl
      · exact Step.noConfusion h
    · split at h
      · exact Step.noConfusion h
      · exact Step.noConfusion h

/-- When the Divide arm continues (a comment was skipped), the cursor has
moved strictly forward on the same buffer. -/
theorem divideCase_cont (host : Host) (st : ParserState) (ctx : Context)
    (lastIsCR : Nat) (s' : ParserState) (l' : Nat)
    (h : divideCase host st ctx lastIsCR = Step.cont s' l') :
    st.index < s'.index ∧ s'.source = st.source := by
  simp only [divideCase] at h
  split at h
  · injection h with h1 h2
    subst h1
    refine ⟨Nat.lt_of_lt_of_le ?_ (skipSingleLineComment_spec _).1, ?_⟩
    · show st.index < st.index + 1 + 1
      omega
    · rw [(skipSingleLineComment_spec _).2]
      rfl
  · split at h
    · split at h
      · exact Step.noConfusion h
      · injection h with h1 h2
        subst h1
        refine ⟨Nat.lt_of_lt_of_le ?_ (skipMultiLineComment_spec _ _).1, ?_⟩
        · show st.index < st.index + 1 + 1
          omega
        · rw [(skipMultiLineComment_spec _ _).2]
          rfl
    · split at h
      · exact Step.noConfusion h
      · split at h
        · exact Step.noConfusion h
        · exact Step.noConfusion h

/-- When the above-ASCII tail continues (LS, PS, or exotic whitespace), the
cursor has moved strictly forward on the same buffer. -/
theorem tailCase_cont (st : ParserState) (ctx : Context) (char : Nat)
    (lastIsCR : Nat) (s' : ParserState) (l' : Nat)
    (h : tailCase st ctx char lastIsCR = Step.cont s' l') :
    st.index < s'.index ∧ s'.source = st.source := by
  simp only [tailCase] at h
  split at h
  · injection h with h1 h2
    subst h1
    exact ⟨Nat.lt_succ_self _, rfl⟩
  · split at h
    · split at h
      · split at h
        · exact Step.noConfusion h
        · exact Step.noConfusion h
      · exact Step.noConfusion h
    · split at h
      · exact cont_advance_spec st s' lastIsCR l' h
      · exact Step.noConfusion h

/-- The Period arm never continues the loop. -/
theorem periodCase_not_cont (st : ParserState) (ctx : Context)
    (s' : ParserState) (l' : Nat) (h : periodCase st ctx = Step.cont s' l') :
    False := by
  simp only [periodCase] at h
  repeat' split at h
  all_goals exact Step.noConfusion h

/-- The QuestionMark arm never continues the loop. -/
theorem questionMarkCase_not_cont (st : ParserState) (ctx : Context)
    (s' : ParserState) (l' : Nat) (h : questionMarkCase st ctx = Step.cont s' l') :
    False := by
  simp only [questionMarkCase] at h
  repeat' split at h
  all_goals exact Step.noConfusion h

/-- The Assign arm never continues the loop. -/
theorem assignCase_not_cont (st : ParserState) (s' : ParserState) (l' : Nat)
    (h : assignCase st = Step.cont s' l') : False := by
  simp only [assignCase] at h
  repeat' split at h
  all_goals exact Step.noConfusion h

/-- The Negate arm never continues the loop. -/
theorem negateCase_not_cont (st : ParserState) (s' : ParserState) (l' : Nat)
    (h : negateCase st = Step.cont s' l') : False := by
  simp only [negateCase] at h
  repeat' split at h
  all_goals exact Step.noConfusion h

/-- The Modulo arm never continues the loop. -/
theorem moduloCase_not_cont (st : ParserState) (s' : ParserState) (l' : Nat)
    (h : moduloCase st = Step.cont s' l') : False := by
  simp only [moduloCase] at h
  repeat' split at h
  all_goals exact Step.noConfusion h

/-- The Multiply arm never continues the loop. -/
theorem multiplyCase_not_cont (st : ParserState) (s' : ParserState) (l' : Nat)
    (h : multiplyCase st = Step.cont s' l') : False := by
  simp only [multiplyCase] at h
  repeat' split at h
  all_goals exact Step.noConfusion h

/-- The BitwiseXor arm never continues the loop. -/
theorem bitwiseXorCase_not_cont (st : ParserState) (s' : ParserState) (l' : Nat)
    (h : bitwiseXorCase st = Step.cont s' l') : False := by
  simp only [bitwiseXorCase] at h
  repeat' split at h
  all_goals exact Step.noConfusion h

/-- The Add arm never continues the loop. -/
theorem addCase_not_cont (st : ParserState) (s' : ParserState) (l' : Nat)
    (h : addCase st = Step.cont s' l') : False := by
  simp only [addCase] at h
  repeat' split at h
  all_goals exact Step.noConfusion h

/-- The BitwiseOr arm never continues the loop. -/
theorem bitwiseOrCase_not_cont (st : ParserState) (s' : ParserState) (l' : Nat)
    (h : bitwiseOrCase st = Step.cont s' l') : False := by
  simp only [bitwiseOrCase] at h
  repeat' split at h
  all_goals exact Step.noConfusion h

/-- The GreaterThan arm never continues the loop. -/
theorem greaterThanCase_not_cont (st : ParserState) (s' : ParserState) (l' : Nat)
    (h : greaterThanCase st = Step.cont s' l') : False := by
  simp only [greaterThanCase] at h
  repeat' split at h
  all_goals exact Step.noConfusion h

/-- The BitwiseAnd arm never continues the loop. -/
theorem bitwiseAndCase_not_cont (st : ParserState) (s' : ParserState) (l' : Nat)
    (h : bitwiseAndCase st = Step.cont s' l') : False := by
  simp only [bitwiseAndCase] at h
  repeat' split at h
  all_goals exact Step.noConfusion h

/-- Whenever one iteration of the dispatch loop continues rather than
returning, the cursor has moved strictly forward on the same buffer.  This
is the progress half of the termination claim. -/
theorem scanBody_cont (host : Host) (ctx : Context) (isStartOfLine : Bool)
    (st : ParserState) (lastIsCR : Nat) (s' : ParserState) (l' : Nat)
    (h : scanBody host ctx isStartOfLine st lastIsCR = Step.cont s' l') :
    st.index < s'.index ∧ s'.source = st.source := by
  simp only [scanBody] at h
  split at h
  · split at h
    all_goals
      first
      | exact Step.noConfusion h
      | (have hx := cont_advance_spec _ s' _ l' h; exact hx)
      | (have hx := lineFeedTail_cont _ _ s' l' h; exact hx)
      | exact (periodCase_not_cont _ _ _ _ h).elim
      | exact (questionMarkCase_not_cont _ _ _ _ h).elim
      | exact (assignCase_not_cont _ _ _ h).elim
      | exact (negateCase_not_cont _ _ _ h).elim
      | exact (moduloCase_not_cont _ _ _ h).elim
      | exact (multiplyCase_not_cont _ _ _ h).elim
      | exact (bitwiseXorCase_not_cont _ _ _ h).elim
      | exact (addCase_not_cont _ _ _ h).elim
      | exact (bitwiseOrCase_not_cont _ _ _ h).elim
      | exact (greaterThanCase_not_cont _ _ _ h).elim
      | exact (bitwiseAndCase_not_cont _ _ _ h).elim
      | (have hx := lessThanCase_cont _ _ s' l' h; exact hx)
      | (have hx := subtractCase_cont _ _ _ _ s' l' h; exact hx)
      | (have hx := divideCase_cont _ _ _ _ s' l' h; exact hx)
      | (have hx := tailCase_cont _ _ _ _ s' l' h; exact hx)
  · have hx := tailCase_cont _ _ _ _ s' l' h
    exact hx

/-- The dispatch loop with fuel strictly above the remaining unit count
always yields a result: every iteration either returns or strictly shrinks
the remaining count. -/
theorem scanLoop_isSome (host : Host) (ctx : Context) (isStartOfLine : Bool) :
    ∀ (fuel : Nat) (st : ParserState) (lastIsCR : Nat),
      st.source.length - st.index < fuel →
      (scanLoop host ctx isStartOfLine fuel st lastIsCR).isSome = true := by
  intro fuel
  induction fuel with
  | zero => intro st lastIsCR h; omega
  | succ n ih =>
    intro st lastIsCR h
    simp only [scanLoop]
    split
    · split
      · simp
      · next s l heq =>
        apply ih
        have hc := scanBody_cont host ctx isStartOfLine st lastIsCR s l heq
        have hsrc : s.source.length = st.source.length := by rw [hc.2]
        omega
    · simp

/-- C10: scanSingleToken terminates on every input: the dispatch loop, run
with its canonical fuel of one above the remaining unit count, always yields
a result because every iteration either returns a token or strictly
increases the index (scanBody_cont); and once the index has reached the
length of the source the loop exits at once with EndOfSource, leaving the
state untouched. -/
theorem c10_scan_single_token_terminates (host : Host) (ctx : Context)
    (st : ParserState) :
    (scanSingleToken host ctx st).isSome = true ∧
    (st.source.length ≤ st.index →
      scanSingleToken host ctx st = some (Token.EndOfSource, st)) := by
  constructor
  · exact scanLoop_isSome host ctx _ _ st 0 (by omega)
  · intro hle
    unfold scanSingleToken
    simp only [scanLoop]
    rw [if_neg (by omega)]

/-- C10 witness: the termination theorem applied at the empty source, whose
index 0 already equals the length, so the scan is defined and returns
EndOfSource immediately. -/
theorem c10_scan_single_token_terminates_witness :
    (scanSingleToken hostTrue ctx0 (initialState [])).isSome = true ∧
    scanSingleToken hostTrue ctx0 (initialState []) =
      some (Token.EndOfSource, initialState []) :=
  ⟨(c10_scan_single_token_terminates hostTrue ctx0 (initialState [])).1,
   (c10_scan_single_token_terminates hostTrue ctx0 (initialState [])).2
     (Nat.le_refl 0)⟩

end Meriyah

